import Mathlib

/-!
Shallow embedding of `src/flashkit/library/create_interp.py` (FlashKit):
the `SimulationData` grid-topology class and the `interp_blocks`
interpolation engine, together with theorems about their behaviour.

Coordinates and field values are modelled as rationals (`ℚ`); numpy
arrays become Lean lists or functions from indices; the external
interpolation primitive (`scipy.interpolate.interpn`) is a black box and
is taken as a function parameter; file handles become an explicit trace
of storage events.
-/

/-- Triple of naturals, used for per-axis process counts, block sizes and
face shifts (in `(x, y, z)` order, as the Python tuples). -/
abbrev N3 := Nat × Nat × Nat

/-- View a Python 3-tuple as the 3-element list obtained by iterating over it. -/
def tripleList (t : N3) : List Nat := [t.1, t.2.1, t.2.2]

/-- Insert a value into a sorted list keeping it sorted (building block for
the model of `numpy.unique`). -/
def insertSorted {α : Type} [LinearOrder α] (a : α) : List α → List α
  | [] => [a]
  | b :: l => if a ≤ b then a :: b :: l else b :: insertSorted a l

/-- Model of `numpy.unique`: the sorted list of the distinct values of the
input (sort, then remove duplicates). -/
def npUnique {α : Type} [LinearOrder α] [DecidableEq α] (l : List α) : List α :=
  (l.foldr insertSorted []).dedup

/-- Embedding of the `SimulationData` class attributes (`create_interp.py`,
lines 33-55).  `bndboxes` is the per-block list of per-axis `(low, high)`
physical extents; `centers` the per-block list of the three center
coordinates; `grids` (per staggering location, per axis, a 2-d array of
coordinate rows indexed by mesh position) is modelled as the function
`gridRows : location → axis → meshIndex → row`; `shapes` maps a staggering
location to the stored dataset shape. -/
structure SimulationData where
  axisNumProcs : N3
  blkPath : String
  bndboxes : List (List (ℚ × ℚ))
  centers : List (List ℚ)
  gridRows : String → Nat → Nat → List ℚ
  ndim : Nat
  numProcs : Nat
  ranges : List (ℚ × ℚ)
  shapes : String → List Nat
  sizes : N3

/-- Modelled from the spec: the configuration constants `BNAME` and `FACES`
come from `CONFIG['create']['block']` in `..resources`, which is not under
`src/`; per the spec, staggering locations are drawn from the fixed
enumeration of the cell-center name followed by one face-centered name per
axis, so `FACES` holds the three face names in axis order. -/
def FACES : List String := ["facex", "facey", "facez"]

/-- Modelled from the spec: the default block-file name constant
`BNAME = CONFIG['create']['block']['name']`, whose value lives in the
resources package outside `src/`. -/
def BNAME : String := "initBlock"

/-- The interval-overlap lambda inside `blocks_from_bbox` (line 59):
`overlaps(ll, lh, hl, hh) = not ((hh < ll) or (hl > lh))`, where
`(ll, lh)` is the block's interval and `(hl, hh)` the query interval. -/
def overlaps (ll lh hl hh : ℚ) : Bool :=
  !(decide (hh < ll) || decide (hl > lh))

/-- Embedding of `SimulationData.blocks_from_bbox` (lines 57-61): indices of
all blocks whose bounding box is at least partially overlapped by the query
box, by enumerating the stored boxes and testing every axis pair. -/
def SimulationData.blocks_from_bbox (s : SimulationData) (box : List (ℚ × ℚ)) : List Nat :=
  (s.bndboxes.enum.filter fun p =>
    (p.2.zip box).all fun q => overlaps q.1.1 q.1.2 q.2.1 q.2.2).map Prod.fst

/-- The numpy selection `self.centers[sliced]` with
`sliced = slice(None) if blocks is None else blocks` (rows of the centers
array, restricted to the given block indices when present). -/
def SimulationData.centers_sel (s : SimulationData) (blocks : Option (List Nat)) : List (List ℚ) :=
  match blocks with
  | none => s.centers
  | some bs => bs.map fun b => s.centers.getD b []

/-- Embedding of `SimulationData.centers_unique` (lines 63-66): per axis, the
sorted distinct center coordinates of the selected blocks. -/
def SimulationData.centers_unique (s : SimulationData) (blocks : Option (List Nat)) : List (List ℚ) :=
  (List.range 3).map fun axis => npUnique ((s.centers_sel blocks).map fun c => c.getD axis 0)

/-- Embedding of `SimulationData.extent_unique` (lines 68-70): the number of
distinct center coordinates per axis. -/
def SimulationData.extent_unique (s : SimulationData) (blocks : Option (List Nat)) : List Nat :=
  (s.centers_unique blocks).map List.length

/-- Embedding of `SimulationData.index_unique` (lines 72-75): for each
selected block, its `[i, j, k]` coordinates, where each component is the
position of the block's center in the subset's sorted distinct centers of
that axis (`numpy.where(unique[axis] == coord)[0][0]`).  The engine always
passes an explicit block list, so the model takes one. -/
def SimulationData.index_unique (s : SimulationData) (blocks : List Nat) : List (List Nat) :=
  let unique := s.centers_unique (some blocks)
  (s.centers_sel (some blocks)).map fun block =>
    block.enum.map fun ac => (unique.getD ac.1 []).indexOf ac.2

/-- Embedding of `SimulationData.index_flatten` (lines 77-80): per axis, the
sorted distinct positions of the selected blocks' centers within the global
(all-blocks) distinct-center list of that axis. -/
def SimulationData.index_flatten (s : SimulationData) (blocks : Option (List Nat)) : List (List Nat) :=
  (List.range 3).map fun axis =>
    npUnique ((s.centers_sel blocks).map fun coord =>
      ((s.centers_unique none).getD axis []).indexOf (coord.getD axis 0))

/-- Embedding of `SimulationData.face_shift` (lines 82-84): the dictionary
lookup with default, giving one extra point along exactly the axis matching
a face-centered location and `(0, 0, 0)` for any other string. -/
def SimulationData.face_shift (_s : SimulationData) (face : String) : N3 :=
  if face = FACES.getD 0 "" then (1, 0, 0)
  else if face = FACES.getD 1 "" then (0, 1, 0)
  else if face = FACES.getD 2 "" then (0, 0, 1)
  else (0, 0, 0)

/-- Embedding of `SimulationData.face_flat_shape` (lines 86-88):
`[extent * size + shift for extent, shift, size in zip(extent_unique, face_shift, sizes)]`. -/
def SimulationData.face_flat_shape (s : SimulationData) (blocks : Option (List Nat)) (face : String) : List Nat :=
  List.zipWith3 (fun extent shift size => extent * size + shift)
    (s.extent_unique blocks) (tripleList (s.face_shift face)) (tripleList s.sizes)

/-- One entry of the `flows` mapping: the Python dict
`{field: (location, source_field, source_face)}` becomes the tuple
`(field, location, source_field, source_face)`; the dict itself becomes a
list of such entries in insertion order. -/
abbrev FlowEntry := String × String × String × String

/-- Per-block field data read from the source storage:
`inputData field block z y x` models `input_file.read(field)[block][z][y][x]`
(2-d storage is the slice `[block, 0]`, i.e. `z = 0`). -/
abbrev InputData := String → Nat → Nat → Nat → Nat → ℚ

/-- The black-box 3-d regular-grid interpolation primitive
(`scipy.interpolate.interpn` with `bounds_error=False, fill_value=None`):
given the three per-axis coordinate vectors `(zzz, yyy, xxx)`, the value
array and one query point `(z, y, x)`, return a value.  It is total on all
query points, i.e. extrapolation is permitted. -/
abbrev InterpFun3 := List ℚ → List ℚ → List ℚ → (Nat → Nat → Nat → ℚ) → ℚ × ℚ × ℚ → ℚ

/-- The black-box 2-d regular-grid interpolation primitive. -/
abbrev InterpFun2 := List ℚ → List ℚ → (Nat → Nat → ℚ) → ℚ × ℚ → ℚ

/-- Convert an `[i, j, k]` logical-index row of `index_unique` to a triple
(the Python loop unpacks it as `(i, j, k)`). -/
def toTriple (l : List Nat) : N3 := (l.getD 0 0, l.getD 1 0, l.getD 2 0)

/-- Membership of a point in the half-open slab `[lo, lo + len)` of one
axis, as cut out by a numpy slice `lo : lo + len`. -/
def inSlab (lo len p : Nat) : Bool :=
  decide (lo ≤ p) && decide (p < lo + len)

/-- One assignment `values[kl:kh, jl:jh, il:ih] = blockData` of the 3-d
reassembly loop (lines 189-193): with logical index `(i, j, k)` the slab
starts at the logical index times the block size per axis and extends one
block size plus the face shift; positions outside the slab keep their
previous value. -/
def writeBlock3D (sizes shift : N3) (blockData : Nat → Nat → Nat → ℚ)
    (arr : Nat → Nat → Nat → ℚ) (idx : N3) : Nat → Nat → Nat → ℚ :=
  fun z y x =>
    if inSlab (idx.2.2 * sizes.2.2) (sizes.2.2 + shift.2.2) z
        && inSlab (idx.2.1 * sizes.2.1) (sizes.2.1 + shift.2.1) y
        && inSlab (idx.1 * sizes.1) (sizes.1 + shift.1) x
    then blockData (z - idx.2.2 * sizes.2.2) (y - idx.2.1 * sizes.2.1) (x - idx.1 * sizes.1)
    else arr z y x

/-- The whole 3-d reassembly loop
`for (i, j, k), source_block in zip(index_uniq, blocks): values[...] = ...`
as a fold over the (logical index, block) pairs, starting from the
uninitialized `numpy.empty` contents `init`.  `data blk` is the stored
per-block array of the source field. -/
def assembleFrom3D (sizes shift : N3) (data : Nat → Nat → Nat → Nat → ℚ)
    (init : Nat → Nat → Nat → ℚ) (pairs : List (N3 × Nat)) : Nat → Nat → Nat → ℚ :=
  pairs.foldl (fun arr p => writeBlock3D sizes shift (data p.2) arr p.1) init

/-- One assignment `values[jl:jh, il:ih] = blockData` of the 2-d reassembly
loop (lines 210-213). -/
def writeBlock2D (sizes shift : N3) (blockData : Nat → Nat → ℚ)
    (arr : Nat → Nat → ℚ) (idx : N3) : Nat → Nat → ℚ :=
  fun y x =>
    if inSlab (idx.2.1 * sizes.2.1) (sizes.2.1 + shift.2.1) y
        && inSlab (idx.1 * sizes.1) (sizes.1 + shift.1) x
    then blockData (y - idx.2.1 * sizes.2.1) (x - idx.1 * sizes.1)
    else arr y x

/-- The whole 2-d reassembly loop as a fold over the (logical index, block)
pairs. -/
def assembleFrom2D (sizes shift : N3) (data : Nat → Nat → Nat → ℚ)
    (init : Nat → Nat → ℚ) (pairs : List (N3 × Nat)) : Nat → Nat → ℚ :=
  pairs.foldl (fun arr p => writeBlock2D sizes shift (data p.2) arr p.1) init

/-- The flattened local source array of the 3-d branch for one destination
block: the given overlapping source blocks' stored arrays for
`sfield`, written at the offsets implied by their `index_unique` logical
indices, over the uninitialized contents `garbage`. -/
def localValues3D (source : SimulationData) (inputData : InputData)
    (sfield sface : String) (blocks : List Nat)
    (garbage : Nat → Nat → Nat → ℚ) : Nat → Nat → Nat → ℚ :=
  assembleFrom3D source.sizes (source.face_shift sface)
    (fun blk => inputData sfield blk) garbage
    (((source.index_unique blocks).map toTriple).zip blocks)

/-- The flattened local source array of the 2-d branch (the stored arrays
are sliced at `[block, 0]`). -/
def localValues2D (source : SimulationData) (inputData : InputData)
    (sfield sface : String) (blocks : List Nat)
    (garbage : Nat → Nat → ℚ) : Nat → Nat → ℚ :=
  assembleFrom2D source.sizes (source.face_shift sface)
    (fun blk => inputData sfield blk 0) garbage
    (((source.index_unique blocks).map toTriple).zip blocks)

/-- All index triples of a 3-d array of shape `(nz, ny, nx)`. -/
def positions3 (nz ny nx : Nat) : List N3 :=
  (List.range nz).flatMap fun z =>
    (List.range ny).flatMap fun y =>
      (List.range nx).map fun x => (z, y, x)

/-- Model of `values.max()` on a 3-d array of shape `(nz, ny, nx)` (numpy
requires the array to be nonempty; the fold is seeded with the entry at the
origin, which belongs to the array whenever the shape is positive). -/
def arrayMax3 (arr : Nat → Nat → Nat → ℚ) (nz ny nx : Nat) : ℚ :=
  ((positions3 nz ny nx).map fun p => arr p.1 p.2.1 p.2.2).foldl max (arr 0 0 0)

/-- Model of `values.min()` on a 3-d array of shape `(nz, ny, nx)`. -/
def arrayMin3 (arr : Nat → Nat → Nat → ℚ) (nz ny nx : Nat) : ℚ :=
  ((positions3 nz ny nx).map fun p => arr p.1 p.2.1 p.2.2).foldl min (arr 0 0 0)

/-- All index pairs of a 2-d array of shape `(ny, nx)`. -/
def positions2 (ny nx : Nat) : List (Nat × Nat) :=
  (List.range ny).flatMap fun y => (List.range nx).map fun x => (y, x)

/-- Model of `values.max()` on a 2-d array of shape `(ny, nx)`. -/
def arrayMax2 (arr : Nat → Nat → ℚ) (ny nx : Nat) : ℚ :=
  ((positions2 ny nx).map fun p => arr p.1 p.2).foldl max (arr 0 0)

/-- Model of `values.min()` on a 2-d array of shape `(ny, nx)`. -/
def arrayMin2 (arr : Nat → Nat → ℚ) (ny nx : Nat) : ℚ :=
  ((positions2 ny nx).map fun p => arr p.1 p.2).foldl min (arr 0 0)

/-- The source blocks overlapping one destination block's bounding box
(line 169: `blocks = source.blocks_from_bbox(bbox)`). -/
def overlapBlocks (destination source : SimulationData) (block : Nat) : List Nat :=
  source.blocks_from_bbox (destination.bndboxes.getD block [])

/-- The value produced for one destination block, one field and one output
position `(z, y, x)` (lines 176-224): locate the overlapping source blocks,
reassemble the local source array, interpolate at the destination grid
point and clip the result to the local array's value range
(`numpy.maximum(numpy.minimum(interpn(...), values.max()), values.min())`).
`width` is the block's mesh position; in the 2-d branch the result is
broadcast over the degenerate leading axis (`[None, :, :]`), so the value
does not depend on `z`; for a dimensionality other than 2 or 3 nothing is
computed and the returned array keeps its uninitialized contents `og`. -/
def blockFieldOutput (destination source : SimulationData)
    (iF3 : InterpFun3) (iF2 : InterpFun2) (inputData : InputData)
    (g3 : Nat → Nat → Nat → ℚ) (g2 : Nat → Nat → ℚ) (og : ℚ)
    (flow : FlowEntry) (block : Nat) (width : N3) (z y x : Nat) : ℚ :=
  let blocks := overlapBlocks destination source block
  let index_flat := source.index_flatten (some blocks)
  let shape := source.face_flat_shape (some blocks) flow.2.2.2
  if source.ndim = 3 then
    let xxx := npUnique ((index_flat.getD 0 []).flatMap fun m => source.gridRows flow.2.2.2 0 m)
    let yyy := npUnique ((index_flat.getD 1 []).flatMap fun m => source.gridRows flow.2.2.2 1 m)
    let zzz := npUnique ((index_flat.getD 2 []).flatMap fun m => source.gridRows flow.2.2.2 2 m)
    let values := localValues3D source inputData flow.2.2.1 flow.2.2.2 blocks g3
    let q := ((destination.gridRows flow.2.1 2 width.2.2).getD z 0,
              (destination.gridRows flow.2.1 1 width.2.1).getD y 0,
              (destination.gridRows flow.2.1 0 width.1).getD x 0)
    max (min (iF3 zzz yyy xxx values q)
          (arrayMax3 values (shape.getD 2 0) (shape.getD 1 0) (shape.getD 0 0)))
      (arrayMin3 values (shape.getD 2 0) (shape.getD 1 0) (shape.getD 0 0))
  else if source.ndim = 2 then
    let xxx := npUnique ((index_flat.getD 0 []).flatMap fun m => source.gridRows flow.2.2.2 0 m)
    let yyy := npUnique ((index_flat.getD 1 []).flatMap fun m => source.gridRows flow.2.2.2 1 m)
    let values := localValues2D source inputData flow.2.2.1 flow.2.2.2 blocks g2
    let q := ((destination.gridRows flow.2.1 1 width.2.1).getD y 0,
              (destination.gridRows flow.2.1 0 width.1).getD x 0)
    max (min (iF2 yyy xxx values q)
          (arrayMax2 values (shape.getD 1 0) (shape.getD 0 0)))
      (arrayMin2 values (shape.getD 1 0) (shape.getD 0 0))
  else og

/-- One storage event of the engine: opening the source or destination
container, declaring a dataset's schema, reading a source field's block
array, or writing one destination block's slice of a field's dataset. -/
inductive TraceEvent where
  | openRead (path : String)
  | openWrite (path : String)
  | createDataset (field : String) (shape : List Nat)
  | readField (field : String)
  | writePart (field : String) (block : Nat)
deriving DecidableEq

/-- Whether an event writes field data into the destination storage. -/
def TraceEvent.isWritePart : TraceEvent → Bool
  | .writePart _ _ => true
  | _ => false

/-- The storage events of one (destination block, field) iteration of the
engine loop: in the 3-d and 2-d branches, one read of the source field per
overlapping source block followed by the partial write of the destination
block's slice; in any other dimensionality the branch is `pass` and emits
nothing. -/
def fieldEvents (source : SimulationData) (flow : FlowEntry) (blocks : List Nat)
    (block : Nat) : List TraceEvent :=
  if source.ndim = 3 then
    blocks.map (fun _ => TraceEvent.readField flow.2.2.1) ++ [TraceEvent.writePart flow.1 block]
  else if source.ndim = 2 then
    blocks.map (fun _ => TraceEvent.readField flow.2.2.1) ++ [TraceEvent.writePart flow.1 block]
  else []

/-- The observable outcome of `interp_blocks`: the storage-event trace, the
error-or-returned-output result, and the (unchanged) inputs threaded
through so frame conditions can be stated. -/
structure InterpResult where
  trace : List TraceEvent
  result : Except String (String → Nat → Nat → Nat → Nat → ℚ)
  destinationFinal : SimulationData
  sourceFinal : SimulationData
  flowsFinal : List FlowEntry

/-- Embedding of `interp_blocks` (lines 143-228).  The worker partition
(`Index.from_simple` / `mesh_width`, from `..core.parallel`, not under
`src/`) is pure bookkeeping computed before any storage access; its
results enter the model as the explicit parameters `indexRange` (the
worker's destination block indices, `index.range`) and `meshWidth` (their
mesh positions).  The dimensionality check precedes every storage event:
on a mismatch the function raises `LibraryError` with an empty trace.
Otherwise the trace records, in program order, opening the source for
reading, opening the destination for writing, one dataset creation per
flow entry, and then the per-block per-field reads and partial writes; the
returned output holds `blockFieldOutput` for every assigned step and
field. -/
def interp_blocks (destination source : SimulationData) (flows : List FlowEntry)
    (_nofile : Bool) (indexRange : List Nat) (meshWidth : List N3)
    (iF3 : InterpFun3) (iF2 : InterpFun2) (inputData : InputData)
    (g3 : Nat → Nat → Nat → ℚ) (g2 : Nat → Nat → ℚ) (og : ℚ) : InterpResult :=
  if destination.ndim ≠ source.ndim then
    { trace := []
    , result := Except.error "Incompatible source and destination grids for interpolation!"
    , destinationFinal := destination
    , sourceFinal := source
    , flowsFinal := flows }
  else
    { trace := [TraceEvent.openRead source.blkPath, TraceEvent.openWrite destination.blkPath]
        ++ flows.map (fun f => TraceEvent.createDataset f.1 (destination.shapes f.2.1))
        ++ (indexRange.zip meshWidth).flatMap (fun bw =>
            flows.flatMap fun flow =>
              fieldEvents source flow (overlapBlocks destination source bw.1) bw.1)
    , result := Except.ok (fun field step z y x =>
        match flows.find? (fun f => f.1 == field) with
        | some flow => blockFieldOutput destination source iF3 iF2 inputData g3 g2 og flow
            (indexRange.getD step 0) (meshWidth.getD step (0, 0, 0)) z y x
        | none => og)
    , destinationFinal := destination
    , sourceFinal := source
    , flowsFinal := flows }

/-- Modelled from the spec: `axisMesh` (from `..support.grid`, not under
`src/`) yields the per-axis process counts of a requested decomposition;
the spec fixes the third-axis process count of a 2-d request to 1, so the
model takes the dimensionality and forces the third component to 1 when it
equals 2. -/
def axisMesh (ndim : Nat) (procs : N3) : N3 :=
  if ndim = 2 then (procs.1, procs.2.1, 1) else procs

/-- Per-axis coordinate arrays `(x, y, z)` as supplied to `from_options`. -/
abbrev Coords3 := List ℚ × List ℚ × List ℚ

/-- Embedding of `SimulationData.from_options` (lines 128-140).  The
support-library helpers `read_coords`, `get_shapes`, `get_grids` and
`get_blocks` are not under `src/` and enter the model as function
parameters; the ranges line is taken from the source: the first two axes
span their coordinate arrays and the third is `(0, 1)` exactly when the
requested dimensionality is 2. -/
def SimulationData.from_options
    (readCoords : String → Nat → Coords3)
    (getShapes : Nat → N3 → N3 → (String → List Nat))
    (getGrids : Coords3 → Nat → N3 → N3 → (String → Nat → Nat → List ℚ))
    (getBlocks : Coords3 → Nat → N3 → N3 → (List (List ℚ) × List (List (ℚ × ℚ))))
    (block : Option String) (coordsOpt : Option Coords3) (ndim : Nat) (path : String)
    (procs : N3) (sizes : N3) : SimulationData :=
  let blockfile := path ++ "/" ++ block.getD BNAME
  let axisProcs := axisMesh ndim procs
  let nProcs := axisProcs.1 * axisProcs.2.1 * axisProcs.2.2
  let coords := coordsOpt.getD (readCoords path ndim)
  let rngs := [(coords.1.getD 0 0, coords.1.getD (coords.1.length - 1) 0),
               (coords.2.1.getD 0 0, coords.2.1.getD (coords.2.1.length - 1) 0),
               if ndim = 2 then ((0 : ℚ), 1)
               else (coords.2.2.getD 0 0, coords.2.2.getD (coords.2.2.length - 1) 0)]
  let cb := getBlocks coords ndim procs sizes
  { axisNumProcs := axisProcs
  , blkPath := blockfile
  , bndboxes := cb.2
  , centers := cb.1
  , gridRows := getGrids coords ndim procs sizes
  , ndim := ndim
  , numProcs := nProcs
  , ranges := rngs
  , shapes := getShapes ndim procs sizes
  , sizes := sizes }

/-- A minimal one-block topology (unit domain, one cell per block) with a
chosen dimensionality, used to evaluate the definitions on concrete
inputs. -/
def tinyTopology (nd : Nat) : SimulationData :=
  { axisNumProcs := (1, 1, 1)
  , blkPath := "tiny"
  , bndboxes := [[(0, 1), (0, 1), (0, 1)]]
  , centers := [[0, 0, 0]]
  , gridRows := fun _ _ _ => [0]
  , ndim := nd
  , numProcs := 1
  , ranges := [(0, 1), (0, 1), (0, 1)]
  , shapes := fun _ => [1, 1, 1, 1]
  , sizes := (1, 1, 1) }

/-- The topology of the spec's face-shift example: 2 x 3 x 1 blocks of
8 x 8 x 1 cells on a unit-spaced lattice. -/
def exampleTopology : SimulationData :=
  { axisNumProcs := (2, 3, 1)
  , blkPath := "example"
  , bndboxes := [[(0, 1), (0, 1), (0, 1)], [(1, 2), (0, 1), (0, 1)],
                 [(0, 1), (1, 2), (0, 1)], [(1, 2), (1, 2), (0, 1)],
                 [(0, 1), (2, 3), (0, 1)], [(1, 2), (2, 3), (0, 1)]]
  , centers := [[0, 0, 0], [1, 0, 0], [0, 1, 0],
                [1, 1, 0], [0, 2, 0], [1, 2, 0]]
  , gridRows := fun _ _ _ => []
  , ndim := 3
  , numProcs := 6
  , ranges := [(0, 2), (0, 3), (0, 1)]
  , shapes := fun _ => []
  , sizes := (8, 8, 1) }

theorem insertSorted_perm {α : Type} [LinearOrder α] (a : α) (l : List α) :
    List.Perm (insertSorted a l) (a :: l) := by
  induction l with
  | nil => exact List.Perm.refl _
  | cons b t ih =>
    rw [insertSorted]
    split
    · exact List.Perm.refl _
    · exact (ih.cons b).trans (List.Perm.swap a b t)

theorem sort_perm {α : Type} [LinearOrder α] (l : List α) :
    List.Perm (l.foldr insertSorted []) l := by
  induction l with
  | nil => exact List.Perm.refl _
  | cons b t ih => exact (insertSorted_perm b _).trans (ih.cons b)

theorem npUnique_length {α : Type} [LinearOrder α] [DecidableEq α] (l : List α) :
    (npUnique l).length = l.dedup.length :=
  ((sort_perm l).dedup).length_eq

theorem foldl_min_le_init {α : Type} [LinearOrder α] (l : List α) (a : α) :
    l.foldl min a ≤ a := by
  induction l generalizing a with
  | nil => exact le_refl a
  | cons b t ih => exact le_trans (ih (min a b)) (min_le_left a b)

theorem init_le_foldl_max {α : Type} [LinearOrder α] (l : List α) (a : α) :
    a ≤ l.foldl max a := by
  induction l generalizing a with
  | nil => exact le_refl a
  | cons b t ih => exact le_trans (le_max_left a b) (ih (max a b))

/-- C9: for every staggering-location string that is not one of the three
face-centered names (including the cell-center name and any unrecognized
string), `face_shift` returns `(0, 0, 0)`: an unknown location is silently
treated as cell-centered rather than rejected. -/
theorem faceShift_default_C9 (s : SimulationData) (face : String)
    (h : face ∉ FACES) : s.face_shift face = (0, 0, 0) := by
  simp only [FACES, List.mem_cons, List.not_mem_nil, or_false, not_or] at h
  obtain ⟨h1, h2, h3⟩ := h
  have e0 : FACES.getD 0 "" = "facex" := rfl
  have e1 : FACES.getD 1 "" = "facey" := rfl
  have e2 : FACES.getD 2 "" = "facez" := rfl
  rw [SimulationData.face_shift, e0, e1, e2, if_neg h1, if_neg h2, if_neg h3]

/-- C9 witness: the cell-center location name is not a face name and gets
the zero shift. -/
theorem faceShift_default_C9_witness :
    "center" ∉ FACES ∧ (tinyTopology 3).face_shift "center" = (0, 0, 0) :=
  ⟨by decide, faceShift_default_C9 (tinyTopology 3) "center" (by decide)⟩

/-- C4: for every topology, every subset of block indices and every
staggering location, `face_flat_shape` equals, per axis, the number of
distinct block-center coordinates of the subset along that axis times the
block size of that axis plus the face shift; the shift is 1 on exactly the
axis matching a face-centered location and 0 on every axis otherwise; and
on the spec's example (process counts `(2, 3, 1)`, block size `(8, 8, 1)`,
all blocks, face-x location) the result is `[2*8+1, 3*8, 1*1] = [17, 24, 1]`
in `(x, y, z)` order. -/
theorem faceFlatShape_formula_C4 :
    (∀ (s : SimulationData) (blocks : Option (List Nat)) (face : String),
      s.face_flat_shape blocks face = (List.range 3).map fun axis =>
        ((s.centers_sel blocks).map fun c => c.getD axis 0).dedup.length
          * (tripleList s.sizes).getD axis 0
          + (tripleList (s.face_shift face)).getD axis 0)
    ∧ (∀ s : SimulationData, s.face_shift "facex" = (1, 0, 0)
        ∧ s.face_shift "facey" = (0, 1, 0) ∧ s.face_shift "facez" = (0, 0, 1)
        ∧ s.face_shift "center" = (0, 0, 0))
    ∧ exampleTopology.face_flat_shape none "facex" = [17, 24, 1] := by
  refine ⟨?_, fun s => ⟨rfl, rfl, rfl, rfl⟩, by decide⟩
  intro s blocks face
  have h3 : List.range 3 = [0, 1, 2] := rfl
  rw [SimulationData.face_flat_shape, SimulationData.extent_unique,
    SimulationData.centers_unique, h3]
  simp only [List.map_cons, List.map_nil]
  rw [npUnique_length, npUnique_length, npUnique_length]
  rfl

/-- C6: a destination topology constructed by `from_options` with requested
dimensionality 2 has its third-axis physical range fixed to `(0, 1)` and
its third-axis process count equal to 1, whatever the coordinate arrays,
requested process counts and support-library helpers supply. -/
theorem fromOptions_2d_C6 :
    ∀ readCoords getShapes getGrids getBlocks block coordsOpt path procs sizes,
    (SimulationData.from_options readCoords getShapes getGrids getBlocks
        block coordsOpt 2 path procs sizes).ranges.getD 2 (0, 0) = ((0 : ℚ), 1)
    ∧ (SimulationData.from_options readCoords getShapes getGrids getBlocks
        block coordsOpt 2 path procs sizes).axisNumProcs.2.2 = 1 := by
  intro readCoords getShapes getGrids getBlocks block coordsOpt path procs sizes
  exact ⟨rfl, rfl⟩

/-- C8: `interp_blocks` never mutates its inputs: the embedding threads the
destination and source `SimulationData` and the `flows` table through the
call and returns them unchanged, on the error branch as well as on
success (the Python code assigns to none of their attributes, and the
constructor defensively copies the box and center arrays it is given). -/
theorem interpBlocks_frame_C8 :
    ∀ destination source flows nofile indexRange meshWidth iF3 iF2 inputData g3 g2 og,
    (interp_blocks destination source flows nofile indexRange meshWidth
        iF3 iF2 inputData g3 g2 og).destinationFinal = destination
    ∧ (interp_blocks destination source flows nofile indexRange meshWidth
        iF3 iF2 inputData g3 g2 og).sourceFinal = source
    ∧ (interp_blocks destination source flows nofile indexRange meshWidth
        iF3 iF2 inputData g3 g2 og).flowsFinal = flows := by
  intro destination source flows nofile indexRange meshWidth iF3 iF2 inputData g3 g2 og
  unfold interp_blocks
  split
  · exact ⟨rfl, rfl, rfl⟩
  · exact ⟨rfl, rfl, rfl⟩

/-- C5: the local source array is assembled so that each overlapping source
block with logical index `(i, j, k)` occupies exactly the slab starting at
offset `(i, j, k)` times the per-axis block size and extending one block
size plus the face shift along each axis: appending one more
(logical index, block) pair to the reassembly fold overwrites exactly that
slab with the block's stored data (at the matching relative offset) and
leaves every other position as assembled so far; and the engine's local
array is exactly this fold over `index_unique`'s logical indices paired
with the overlapping blocks. -/
theorem assembleOffsets_C5 :
    (∀ (sizes shift : N3) (data : Nat → Nat → Nat → Nat → ℚ)
        (init : Nat → Nat → Nat → ℚ) (pairs : List (N3 × Nat)) (idx : N3)
        (blk : Nat) (z y x : Nat),
      assembleFrom3D sizes shift data init (pairs ++ [(idx, blk)]) z y x =
        if inSlab (idx.2.2 * sizes.2.2) (sizes.2.2 + shift.2.2) z
            && inSlab (idx.2.1 * sizes.2.1) (sizes.2.1 + shift.2.1) y
            && inSlab (idx.1 * sizes.1) (sizes.1 + shift.1) x
        then data blk (z - idx.2.2 * sizes.2.2) (y - idx.2.1 * sizes.2.1)
            (x - idx.1 * sizes.1)
        else assembleFrom3D sizes shift data init pairs z y x)
    ∧ (∀ (sizes shift : N3) (data : Nat → Nat → Nat → ℚ)
        (init : Nat → Nat → ℚ) (pairs : List (N3 × Nat)) (idx : N3)
        (blk : Nat) (y x : Nat),
      assembleFrom2D sizes shift data init (pairs ++ [(idx, blk)]) y x =
        if inSlab (idx.2.1 * sizes.2.1) (sizes.2.1 + shift.2.1) y
            && inSlab (idx.1 * sizes.1) (sizes.1 + shift.1) x
        then data blk (y - idx.2.1 * sizes.2.1) (x - idx.1 * sizes.1)
        else assembleFrom2D sizes shift data init pairs y x)
    ∧ (∀ (source : SimulationData) (inputData : InputData) (sfield sface : String)
        (blocks : List Nat) (garbage : Nat → Nat → Nat → ℚ),
      localValues3D source inputData sfield sface blocks garbage =
        assembleFrom3D source.sizes (source.face_shift sface)
          (fun blk => inputData sfield blk) garbage
          (((source.index_unique blocks).map toTriple).zip blocks)) := by
  refine ⟨?_, ?_, fun _ _ _ _ _ _ => rfl⟩
  · intro sizes shift data init pairs idx blk z y x
    simp only [assembleFrom3D, List.foldl_append, List.foldl_cons, List.foldl_nil,
      writeBlock3D]
  · intro sizes shift data init pairs idx blk y x
    simp only [assembleFrom2D, List.foldl_append, List.foldl_cons, List.foldl_nil,
      writeBlock2D]

/-- C3: when the destination and source dimensionalities differ,
`interp_blocks` fails with the incompatible-grids `LibraryError` and the
storage-event trace is empty: the check precedes opening the source for
reading, opening or creating the destination, and every dataset-schema
declaration. -/
theorem interpBlocks_dimCheck_C3 :
    ∀ destination source flows nofile indexRange meshWidth iF3 iF2 inputData g3 g2 og,
    destination.ndim ≠ source.ndim →
    (interp_blocks destination source flows nofile indexRange meshWidth
        iF3 iF2 inputData g3 g2 og).trace = []
    ∧ (interp_blocks destination source flows nofile indexRange meshWidth
        iF3 iF2 inputData g3 g2 og).result =
      Except.error "Incompatible source and destination grids for interpolation!" := by
  intro destination source flows nofile indexRange meshWidth iF3 iF2 inputData g3 g2 og h
  unfold interp_blocks
  rw [if_pos h]
  exact ⟨rfl, rfl⟩

/-- Concrete black-box interpolation primitive used for witnesses. -/
def cIF3 : InterpFun3 := fun _ _ _ _ _ => 7

/-- Concrete 2-d black-box interpolation primitive used for witnesses. -/
def cIF2 : InterpFun2 := fun _ _ _ _ => 7

/-- Concrete source storage contents used for witnesses. -/
def cInput : InputData := fun _ _ _ _ _ => 1

/-- Concrete uninitialized 3-d array contents used for witnesses. -/
def cG3 : Nat → Nat → Nat → ℚ := fun _ _ _ => 0

/-- Concrete uninitialized 2-d array contents used for witnesses. -/
def cG2 : Nat → Nat → ℚ := fun _ _ => 0

/-- C3 witness: a 2-d destination against a 3-d source fails with the
incompatible-grids error and an empty trace. -/
theorem interpBlocks_dimCheck_C3_witness :
    (tinyTopology 2).ndim ≠ (tinyTopology 3).ndim
    ∧ ((interp_blocks (tinyTopology 2) (tinyTopology 3) [] false [] []
          cIF3 cIF2 cInput cG3 cG2 0).trace = []
      ∧ (interp_blocks (tinyTopology 2) (tinyTopology 3) [] false [] []
          cIF3 cIF2 cInput cG3 cG2 0).result =
        Except.error "Incompatible source and destination grids for interpolation!") :=
  ⟨by decide, interpBlocks_dimCheck_C3 (tinyTopology 2) (tinyTopology 3) [] false [] []
    cIF3 cIF2 cInput cG3 cG2 0 (by decide)⟩

/-- Whether an `Except` result is a success. -/
def resultOk {α : Type} : Except String α → Bool
  | Except.ok _ => true
  | Except.error _ => false

/-- C7: when the shared dimensionality is neither 2 nor 3, `interp_blocks`
raises no error and writes no field data for any destination block: the
run succeeds and its trace contains no partial write, so every field's
destination dataset region stays unwritten (the storage is still opened
and the dataset schemas are still declared). -/
theorem interpBlocks_noop_C7 :
    ∀ destination source flows nofile indexRange meshWidth iF3 iF2 inputData g3 g2 og,
    destination.ndim = source.ndim → source.ndim ≠ 2 → source.ndim ≠ 3 →
    resultOk (interp_blocks destination source flows nofile indexRange meshWidth
        iF3 iF2 inputData g3 g2 og).result = true
    ∧ ((interp_blocks destination source flows nofile indexRange meshWidth
        iF3 iF2 inputData g3 g2 og).trace.all fun e => !e.isWritePart) = true := by
  intro destination source flows nofile indexRange meshWidth iF3 iF2 inputData g3 g2 og h h2 h3
  have hne : ¬ destination.ndim ≠ source.ndim := fun hc => hc h
  have hf : ∀ flow blocks block, fieldEvents source flow blocks block = [] := by
    intro flow blocks block
    rw [fieldEvents, if_neg h3, if_neg h2]
  unfold interp_blocks
  rw [if_neg hne]
  refine ⟨rfl, ?_⟩
  rw [List.all_eq_true]
  intro e he
  rw [List.mem_append] at he
  rcases he with he | he
  · rw [List.mem_append] at he
    rcases he with he | he
    · simp only [List.mem_cons, List.not_mem_nil, or_false] at he
      rcases he with he | he
      · rw [he]; rfl
      · rw [he]; rfl
    · rcases List.mem_map.mp he with ⟨f, _, rfl⟩
      rfl
  · rcases List.mem_flatMap.mp he with ⟨bw, _, hin⟩
    rcases List.mem_flatMap.mp hin with ⟨flow, _, hin2⟩
    rw [hf] at hin2
    exact absurd hin2 (List.not_mem_nil e)

/-- C7 witness: a shared dimensionality of 4 succeeds with no partial
write in the trace. -/
theorem interpBlocks_noop_C7_witness :
    (tinyTopology 4).ndim = (tinyTopology 4).ndim ∧ (tinyTopology 4).ndim ≠ 2
    ∧ (tinyTopology 4).ndim ≠ 3
    ∧ (resultOk (interp_blocks (tinyTopology 4) (tinyTopology 4)
          [("dens", "center", "dens", "center")] false [0] [(0, 0, 0)]
          cIF3 cIF2 cInput cG3 cG2 0).result = true
      ∧ ((interp_blocks (tinyTopology 4) (tinyTopology 4)
          [("dens", "center", "dens", "center")] false [0] [(0, 0, 0)]
          cIF3 cIF2 cInput cG3 cG2 0).trace.all fun e => !e.isWritePart) = true) :=
  ⟨rfl, by decide, by decide,
    interpBlocks_noop_C7 (tinyTopology 4) (tinyTopology 4)
      [("dens", "center", "dens", "center")] false [0] [(0, 0, 0)]
      cIF3 cIF2 cInput cG3 cG2 0 rfl (by decide) (by decide)⟩

/-- C10: for every topology and query box, `blocks_from_bbox` returns a
strictly increasing list of indices with no duplicates, each lying within
the range of stored bounding boxes: the enumeration order the reassembly
loop relies on when pairing the list positionally with logical indices. -/
theorem blocksFromBbox_order_C10 (s : SimulationData) (box : List (ℚ × ℚ)) :
    (s.blocks_from_bbox box).Pairwise (· < ·)
    ∧ (s.blocks_from_bbox box).Nodup
    ∧ ∀ i ∈ s.blocks_from_bbox box, i < s.bndboxes.length := by
  have hsub : List.Sublist (s.blocks_from_bbox box) (List.range s.bndboxes.length) := by
    rw [SimulationData.blocks_from_bbox, ← List.enum_map_fst s.bndboxes]
    exact List.Sublist.map Prod.fst (List.filter_sublist _)
  have hp : (s.blocks_from_bbox box).Pairwise (· < ·) :=
    List.Pairwise.sublist hsub (List.pairwise_lt_range _)
  refine ⟨hp, List.Pairwise.imp (fun hab => Nat.ne_of_lt hab) hp, ?_⟩
  intro i hi
  exact List.mem_range.mp (hsub.subset hi)

/-- C10 witness: on the six-block example topology with a box covering the
whole domain, block 0 is returned and lies below the box count. -/
theorem blocksFromBbox_order_C10_witness :
    0 ∈ exampleTopology.blocks_from_bbox [(0, 2), (0, 3), (0, 1)]
    ∧ 0 < exampleTopology.bndboxes.length :=
  ⟨by decide, (blocksFromBbox_order_C10 exampleTopology
    [(0, 2), (0, 3), (0, 1)]).2.2 0 (by decide)⟩

/-- C2: for every topology and query box, `blocks_from_bbox` returns
exactly the block indices whose stored bounding box passes the closed
interval test `overlaps(l1, h1, l2, h2) = not (h2 < l1 or l2 > h1)` on all
zipped axes; and the test is inclusive, so a block whose boundary merely
touches the query box boundary (the query's high end at the block's low
end, or the query's low end at the block's high end) is included. -/
theorem blocksFromBbox_mem_C2 :
    (∀ (s : SimulationData) (box : List (ℚ × ℚ)) (blk : Nat),
      blk ∈ s.blocks_from_bbox box ↔
        ∃ bb, s.bndboxes[blk]? = some bb ∧
          ∀ p ∈ bb.zip box, overlaps p.1.1 p.1.2 p.2.1 p.2.2 = true)
    ∧ (∀ ll lh c d : ℚ, c ≤ ll → ll ≤ lh → lh ≤ d →
        overlaps ll lh c ll = true ∧ overlaps ll lh lh d = true) := by
  constructor
  · intro s box blk
    rw [SimulationData.blocks_from_bbox]
    constructor
    · intro h
      rcases List.mem_map.mp h with ⟨p, hp, rfl⟩
      rcases List.mem_filter.mp hp with ⟨henum, hP⟩
      rcases p with ⟨i, bb⟩
      refine ⟨bb, List.mk_mem_enum_iff_getElem?.mp henum, ?_⟩
      simpa [List.all_eq_true] using hP
    · rintro ⟨bb, hget, hall⟩
      refine List.mem_map.mpr ⟨(blk, bb), List.mem_filter.mpr
        ⟨List.mk_mem_enum_iff_getElem?.mpr hget, ?_⟩, rfl⟩
      simpa [List.all_eq_true] using hall
  · intro ll lh c d h1 h2 h3
    constructor
    · have hx : ¬ (ll < ll) := lt_irrefl ll
      have hy : ¬ (c > lh) := not_lt.mpr (le_trans h1 h2)
      simp [overlaps, hx, hy]
    · have hx : ¬ (d < ll) := not_lt.mpr (le_trans h2 h3)
      have hy : ¬ (lh > lh) := lt_irrefl lh
      simp [overlaps, hx, hy]

/-- C2 witness: the block interval `[0, 1]` is overlapped by query
intervals that merely touch it at either end. -/
theorem blocksFromBbox_mem_C2_witness :
    (-1 : ℚ) ≤ 0 ∧ (0 : ℚ) ≤ 1 ∧ (1 : ℚ) ≤ 2
    ∧ (overlaps 0 1 (-1) 0 = true ∧ overlaps 0 1 1 2 = true) :=
  ⟨by decide, by decide, by decide,
    blocksFromBbox_mem_C2.2 0 1 (-1) 2 (by decide) (by decide) (by decide)⟩

theorem clamp_mem (v lo hi : ℚ) (h : lo ≤ hi) :
    lo ≤ max (min v hi) lo ∧ max (min v hi) lo ≤ hi :=
  ⟨le_max_right _ _, max_le (min_le_right _ _) h⟩

theorem arrayMin3_le_arrayMax3 (arr : Nat → Nat → Nat → ℚ) (nz ny nx : Nat) :
    arrayMin3 arr nz ny nx ≤ arrayMax3 arr nz ny nx := by
  rw [arrayMin3, arrayMax3]
  exact le_trans (foldl_min_le_init _ _) (init_le_foldl_max _ _)

theorem arrayMin2_le_arrayMax2 (arr : Nat → Nat → ℚ) (ny nx : Nat) :
    arrayMin2 arr ny nx ≤ arrayMax2 arr ny nx := by
  rw [arrayMin2, arrayMax2]
  exact le_trans (foldl_min_le_init _ _) (init_le_foldl_max _ _)

/-- C1: every value the engine produces for a destination block and a field
lies within the closed interval from the minimum to the maximum of the
flattened local source array assembled from exactly the source blocks
overlapping that destination block's bounding box — for every
interpolation primitive and hence also for query points outside the source
coordinate range (the primitive is invoked with extrapolation permitted
and the clamp is applied afterwards, per block, not from a global range);
this holds in the 3-d and in the 2-d branch whenever the local array is
nonempty, and the array the call returns holds exactly these per-position
values. -/
theorem clampBounds_C1 :
    ∀ (destination source : SimulationData) (iF3 : InterpFun3) (iF2 : InterpFun2)
      (inputData : InputData) (g3 : Nat → Nat → Nat → ℚ) (g2 : Nat → Nat → ℚ)
      (og : ℚ) (flow : FlowEntry) (block : Nat) (width : N3) (z y x : Nat),
    (source.ndim = 3 →
      0 < ((source.face_flat_shape (some (overlapBlocks destination source block)) flow.2.2.2).getD 2 0) →
      0 < ((source.face_flat_shape (some (overlapBlocks destination source block)) flow.2.2.2).getD 1 0) →
      0 < ((source.face_flat_shape (some (overlapBlocks destination source block)) flow.2.2.2).getD 0 0) →
      arrayMin3
          (localValues3D source inputData flow.2.2.1 flow.2.2.2
            (overlapBlocks destination source block) g3)
          ((source.face_flat_shape (some (overlapBlocks destination source block)) flow.2.2.2).getD 2 0)
          ((source.face_flat_shape (some (overlapBlocks destination source block)) flow.2.2.2).getD 1 0)
          ((source.face_flat_shape (some (overlapBlocks destination source block)) flow.2.2.2).getD 0 0)
        ≤ blockFieldOutput destination source iF3 iF2 inputData g3 g2 og flow block width z y x
      ∧ blockFieldOutput destination source iF3 iF2 inputData g3 g2 og flow block width z y x
        ≤ arrayMax3
          (localValues3D source inputData flow.2.2.1 flow.2.2.2
            (overlapBlocks destination source block) g3)
          ((source.face_flat_shape (some (overlapBlocks destination source block)) flow.2.2.2).getD 2 0)
          ((source.face_flat_shape (some (overlapBlocks destination source block)) flow.2.2.2).getD 1 0)
          ((source.face_flat_shape (some (overlapBlocks destination source block)) flow.2.2.2).getD 0 0))
    ∧ (source.ndim = 2 →
      0 < ((source.face_flat_shape (some (overlapBlocks destination source block)) flow.2.2.2).getD 1 0) →
      0 < ((source.face_flat_shape (some (overlapBlocks destination source block)) flow.2.2.2).getD 0 0) →
      arrayMin2
          (localValues2D source inputData flow.2.2.1 flow.2.2.2
            (overlapBlocks destination source block) g2)
          ((source.face_flat_shape (some (overlapBlocks destination source block)) flow.2.2.2).getD 1 0)
          ((source.face_flat_shape (some (overlapBlocks destination source block)) flow.2.2.2).getD 0 0)
        ≤ blockFieldOutput destination source iF3 iF2 inputData g3 g2 og flow block width z y x
      ∧ blockFieldOutput destination source iF3 iF2 inputData g3 g2 og flow block width z y x
        ≤ arrayMax2
          (localValues2D source inputData flow.2.2.1 flow.2.2.2
            (overlapBlocks destination source block) g2)
          ((source.face_flat_shape (some (overlapBlocks destination source block)) flow.2.2.2).getD 1 0)
          ((source.face_flat_shape (some (overlapBlocks destination source block)) flow.2.2.2).getD 0 0))
    ∧ (∀ (flows : List FlowEntry) (nofile : Bool) (indexRange : List Nat)
        (meshWidth : List N3) (out : String → Nat → Nat → Nat → Nat → ℚ)
        (field : String) (step : Nat),
      (interp_blocks destination source flows nofile indexRange meshWidth
          iF3 iF2 inputData g3 g2 og).result = Except.ok out →
      flows.find? (fun f => f.1 == field) = some flow →
      out field step z y x = blockFieldOutput destination source iF3 iF2 inputData
        g3 g2 og flow (indexRange.getD step 0) (meshWidth.getD step (0, 0, 0)) z y x) := by
  intro destination source iF3 iF2 inputData g3 g2 og flow block width z y x
  refine ⟨?_, ?_, ?_⟩
  · intro h3 _ _ _
    have hb : blockFieldOutput destination source iF3 iF2 inputData g3 g2 og
        flow block width z y x = _ := rfl
    rw [blockFieldOutput] at hb ⊢
    rw [if_pos h3]
    exact clamp_mem _ _ _ (arrayMin3_le_arrayMax3 _ _ _ _)
  · intro h2 _ _
    have hn3 : source.ndim ≠ 3 := by rw [h2]; decide
    rw [blockFieldOutput, if_neg hn3, if_pos h2]
    exact clamp_mem _ _ _ (arrayMin2_le_arrayMax2 _ _ _)
  · intro flows nofile indexRange meshWidth out field step hok hfind
    by_cases hne : destination.ndim ≠ source.ndim
    · rw [interp_blocks, if_pos hne] at hok
      exact absurd hok (by simp)
    · rw [interp_blocks, if_neg hne] at hok
      have heq := (Except.ok.injEq _ _).mp hok
      rw [← heq]
      dsimp only
      rw [hfind]

/-- Local-array shape of the C1 witness configuration. -/
def tinyC1shape : List Nat :=
  (tinyTopology 3).face_flat_shape
    (some (overlapBlocks (tinyTopology 3) (tinyTopology 3) 0)) "center"

/-- Local source array of the C1 witness configuration. -/
def tinyC1vals : Nat → Nat → Nat → ℚ :=
  localValues3D (tinyTopology 3) cInput "dens" "center"
    (overlapBlocks (tinyTopology 3) (tinyTopology 3) 0) cG3

/-- C1 witness: on the one-block topology interpolated onto itself, with a
primitive that returns 7 while the stored data is constantly 1, the
produced value is clamped into the local array's range. -/
theorem clampBounds_C1_witness :
    (tinyTopology 3).ndim = 3
    ∧ 0 < tinyC1shape.getD 2 0 ∧ 0 < tinyC1shape.getD 1 0 ∧ 0 < tinyC1shape.getD 0 0
    ∧ (arrayMin3 tinyC1vals (tinyC1shape.getD 2 0) (tinyC1shape.getD 1 0)
          (tinyC1shape.getD 0 0)
        ≤ blockFieldOutput (tinyTopology 3) (tinyTopology 3) cIF3 cIF2 cInput cG3 cG2 0
            ("dens", "center", "dens", "center") 0 (0, 0, 0) 0 0 0
      ∧ blockFieldOutput (tinyTopology 3) (tinyTopology 3) cIF3 cIF2 cInput cG3 cG2 0
            ("dens", "center", "dens", "center") 0 (0, 0, 0) 0 0 0
        ≤ arrayMax3 tinyC1vals (tinyC1shape.getD 2 0) (tinyC1shape.getD 1 0)
            (tinyC1shape.getD 0 0)) :=
  ⟨rfl, by decide, by decide, by decide,
    (clampBounds_C1 (tinyTopology 3) (tinyTopology 3) cIF3 cIF2 cInput cG3 cG2 0
      ("dens", "center", "dens", "center") 0 (0, 0, 0) 0 0 0).1 rfl
      (by decide) (by decide) (by decide)⟩
